import Mathlib

/-!
# Guestbook with Google OAuth login (App Engine, Go)

A shallow embedding of `hello.go`, `googleaccount/model.go` and
`googleaccount/repository.go`.

* Go `error` values are `Option GoError` (`none` is `nil`).
* `time.Time` is an integer instant.
* The App Engine datastore is an explicit state: one table per entity kind, each a
  list of `(key, entity)` pairs in insertion order.  Every datastore call can be made
  to fail through the per-request environment `Env`.
* The OAuth provider library, the query-string reader, the template engine and the
  clock are parameters of `Env`.
* A handler returns what it wrote to the `http.ResponseWriter`, whether it panicked,
  the datastore it leaves behind and the provider calls it made.
-/

namespace Guestbook

/-! ## Go values -/

/-- Instants of `time.Time`, as integers. -/
abbrev Time := Int

/-- Non-nil Go `error` values: the datastore sentinel `datastore.ErrNoSuchEntity`, and any
other error, identified by its message. -/
inductive GoError where
  | ErrNoSuchEntity
  | other (msg : String)
deriving DecidableEq, Repr

/-- Method `Error()` of a non-nil error. -/
def GoError.Error : GoError → String
  | .ErrNoSuchEntity => "datastore: no such entity"
  | .other msg => msg

/-- Outcome of a failure switch of the environment: `none` is a nil error. -/
def faultError (fault : Option String) : Option GoError :=
  fault.map GoError.other

/-! ## Data model (`hello.go` 23-33, `googleaccount/model.go`) -/

/-- Go struct `Greeting`. -/
structure Greeting where
  Author : String
  Content : String
  Date : Time
deriving DecidableEq, Repr

/-- Go struct `OAuthToken`. -/
structure OAuthToken where
  Name : String
  ClientID : String
  ClientSecret : String
deriving DecidableEq, Repr

/-- Go struct `googleaccount.Credential`. -/
structure Credential where
  ID : String
  IdToken : String
  AccessToken : String
  TokenType : String
  ExpiresIn : Time
deriving DecidableEq, Repr

/-- Go struct `googleaccount.GoogleAccount`. -/
structure GoogleAccount where
  ID : Int
  ProviderID : String
  Name : String
  Email : String
  AvatarURL : String
  Credential : Credential
  CreatedAt : Time
  UpdatedAt : Time
deriving DecidableEq, Repr

/-- Zero value of `GoogleAccount` (`var ga GoogleAccount`). -/
def GoogleAccount.zero : GoogleAccount :=
  ⟨0, "", "", "", "", ⟨"", "", "", "", 0⟩, 0, 0⟩

/-! ## Datastore keys -/

/-- One element of a datastore key path: kind, string id, integer id. -/
structure PathElem where
  kind : String
  stringID : String
  intID : Int
deriving DecidableEq, Repr

/-- A `*datastore.Key`: the path from the root ancestor down to the entity. -/
abbrev Key := List PathElem

/-- Go `datastore.NewKey(ctx, kind, stringID, intID, parent)`. -/
def NewKey (kind stringID : String) (intID : Int) (parent : Option Key) : Key :=
  parent.getD [] ++ [⟨kind, stringID, intID⟩]

/-- Go `datastore.NewIncompleteKey(ctx, kind, parent)`. -/
def NewIncompleteKey (kind : String) (parent : Option Key) : Key :=
  NewKey kind "" 0 parent

/-- Go `(*Key).Incomplete`: the last element has neither a string id nor an integer id. -/
def Incomplete (k : Key) : Bool :=
  match k.getLast? with
  | some e => e.stringID == "" && e.intID == 0
  | none => false

/-- Integer id of the last element of a key (0 for a key without one). -/
def lastIntID (k : Key) : Int :=
  match k.getLast? with
  | some e => e.intID
  | none => 0

/-- Largest integer id in use in a table (0 when there is none). -/
def maxIntID {α : Type} (tbl : List (Key × α)) : Int :=
  tbl.foldr (fun e m => max (lastIntID e.1) m) 0

/-- The key an incomplete key is completed to: same path, a fresh integer id. -/
def completeKey (k : Key) (id : Int) : Key :=
  match k.getLast? with
  | some e => k.dropLast ++ [⟨e.kind, e.stringID, id⟩]
  | none => k

/-! ## Datastore -/

/-- The datastore: one table per kind, in insertion order. -/
structure Datastore where
  oauthTokens : List (Key × OAuthToken)
  greetings : List (Key × Greeting)
  googleAccounts : List (Key × GoogleAccount)
deriving DecidableEq, Repr

/-- First entity stored under a key. -/
def lookupKey {α : Type} (tbl : List (Key × α)) (key : Key) : Option α :=
  (tbl.find? (fun e => e.1 == key)).map (fun e => e.2)

/-- Go `datastore.Get(ctx, key, dst)`: the loaded value (`dst` itself when nothing is loaded)
and the error. -/
def datastoreGet {α : Type} (fault : Option String) (tbl : List (Key × α)) (key : Key)
    (dst : α) : α × Option GoError :=
  match faultError fault with
  | some err => (dst, some err)
  | none =>
    match lookupKey tbl key with
    | some v => (v, none)
    | none => (dst, some GoError.ErrNoSuchEntity)

/-- Go `datastore.Put(ctx, key, src)`: the final key, the table afterwards and the error.
An incomplete key is completed with a fresh id and the entity is added; a complete key
overwrites the entity stored under it or adds it.  A failed put changes nothing. -/
def datastorePut {α : Type} (fault : Option String) (tbl : List (Key × α)) (key : Key)
    (src : α) : Key × List (Key × α) × Option GoError :=
  match faultError fault with
  | some err => (key, tbl, some err)
  | none =>
    if Incomplete key then
      let k := completeKey key (maxIntID tbl + 1)
      (k, tbl ++ [(k, src)], none)
    else if (lookupKey tbl key).isSome then
      (key, tbl.map (fun e => if e.1 == key then (key, src) else e), none)
    else
      (key, tbl ++ [(key, src)], none)

/-! ## Requests, responses, environment -/

/-- The parts of `*http.Request` the handlers read. -/
structure Request where
  TLS : Bool
  Host : String
  Header : List (String × String)
  RawQuery : String
  Form : List (String × String)
deriving DecidableEq, Repr

/-- Go `r.Header.Get(key)`: the first value of the header, or the empty string. -/
def Request.HeaderGet (r : Request) (key : String) : String :=
  (r.Header.lookup key).getD ""

/-- Go `r.FormValue(key)`: the first value of the form field, or the empty string. -/
def Request.FormValue (r : Request) (key : String) : String :=
  (r.Form.lookup key).getD ""

/-- An App Engine `*user.User`, reduced to the value of its `String()` method. -/
structure User where
  name : String
deriving DecidableEq, Repr

/-- The `*google.GoogleProvider` built by `google.New(clientID, clientSecret, callbackURL)`. -/
structure GoogleProvider where
  clientID : String
  clientSecret : String
  callbackURL : String
deriving DecidableEq, Repr

/-- An `objx.Map` of strings: query parameters, credentials, state. -/
abbrev ObjMap := List (String × String)

/-- The profile a `common.User` carries. -/
structure ProviderUser where
  IDForProvider : String
  Name : String
  Email : String
  AvatarURL : String
deriving DecidableEq, Repr

/-- Everything outside the program that a single request depends on. -/
structure Env where
  /-- Go `time.Now()`. -/
  now : Time
  /-- Go `user.Current(c)`; `none` is nil. -/
  currentUser : Option User
  /-- Go `os.Getenv`. -/
  getenv : String → String
  /-- When set, `datastore.Get` fails with this message. -/
  getFault : Option String
  /-- When set, `datastore.Put` fails with this message. -/
  putFault : Option String
  /-- When set, `Query.GetAll` fails with this message. -/
  queryFault : Option String
  /-- Go `objx.FromURLQuery`. -/
  fromURLQuery : String → ObjMap × Option GoError
  /-- Go `provider.GetBeginAuthURL(state, nil)`. -/
  getBeginAuthURL : GoogleProvider → ObjMap → String × Option GoError
  /-- Go `provider.CompleteAuth(omap)`. -/
  completeAuth : GoogleProvider → ObjMap → ObjMap × Option GoError
  /-- Go `provider.GetUser(creds)`. -/
  getUser : GoogleProvider → ObjMap → ProviderUser × Option GoError
  /-- Go `fmt.Sprintf("%#v", user)`. -/
  goSyntax : ProviderUser → String
  /-- Go `guestbookTemplate.Execute(w, greetings)`: the text written and the error. -/
  execute : List Greeting → String × Option GoError

/-- Calls on the `http.ResponseWriter`, in order. -/
inductive WriterOp where
  | WriteString (s : String)
  | Error (msg : String) (code : Nat)
  | Redirect (url : String) (code : Nat)
deriving DecidableEq, Repr

/-- Status code of the response: set by the first call on the writer. -/
def statusCode : List WriterOp → Option Nat
  | [] => none
  | .WriteString _ :: _ => some 200
  | .Error _ code :: _ => some code
  | .Redirect _ code :: _ => some code

/-- Calls into the OAuth library, in order. -/
inductive ProviderCall where
  | SetSecurityKey (key : String)
  | New (clientID clientSecret callbackURL : String)
  | GetBeginAuthURL (state : ObjMap)
  | CompleteAuth (omap : ObjMap)
  | GetUser (creds : ObjMap)
deriving DecidableEq, Repr

/-- What a handler leaves behind. -/
structure Served where
  /-- Calls made on the response writer. -/
  w : List WriterOp
  /-- The value the handler panicked with, if it did. -/
  panicked : Option String
  /-- The datastore afterwards. -/
  store : Datastore
  /-- Calls made into the OAuth library. -/
  calls : List ProviderCall
deriving DecidableEq, Repr

/-- Go `http.StatusInternalServerError`. -/
def StatusInternalServerError : Nat := 500

/-- Go `http.StatusFound`. -/
def StatusFound : Nat := 302

/-- Panic value of a method call on a nil interface. -/
def nilDereference : String :=
  "runtime error: invalid memory address or nil pointer dereference"

/-- Go `http.Error(w, err.Error(), code); return` for a possibly nil `err`: calling `Error()`
on a nil error panics before anything is written. -/
def httpError (err : Option GoError) (code : Nat) (store : Datastore)
    (calls : List ProviderCall) : Served :=
  match err with
  | some e => ⟨[.Error e.Error code], none, store, calls⟩
  | none => ⟨[], some nilDereference, store, calls⟩

/-! ## `hello.go` -/

/-- Go `fetchGoogleOAuthKey` (`hello.go` 42-59): the token, the error and the datastore
afterwards. -/
def fetchGoogleOAuthKey (env : Env) (ds : Datastore) :
    (OAuthToken × Option GoError) × Datastore :=
  let key := NewKey "OAuthToken" "google" 0 none
  let oauthToken : OAuthToken := ⟨"", "", ""⟩
  match datastoreGet env.getFault ds.oauthTokens key oauthToken with
  | (_, some .ErrNoSuchEntity) =>
    let oauthToken : OAuthToken := ⟨"default", "<ClientID>", "<ClientSecret>"⟩
    match datastorePut env.putFault ds.oauthTokens key oauthToken with
    | (_, tbl, some err) => ((oauthToken, some err), { ds with oauthTokens := tbl })
    | (_, tbl, none) => ((oauthToken, none), { ds with oauthTokens := tbl })
  | (oauthToken, some err) => ((oauthToken, some err), ds)
  | (oauthToken, none) => ((oauthToken, none), ds)

/-- Go `getAccessURL` (`hello.go` 135-153). -/
def getAccessURL (r : Request) : String :=
  let scheme := "http"
  let scheme := if r.TLS then "https" else scheme
  let scheme := if r.HeaderGet "X-Forwarded-Scheme" = "https" then "https" else scheme
  let hostname := r.Host
  let port := r.HeaderGet "X-Server-Port"
  let hostname := if port ≠ "" then hostname ++ ":" ++ port else hostname
  scheme ++ "://" ++ hostname

/-- Go `initializeGoogleLogin` (`hello.go` 61-84): the provider (`none` is nil), the error,
the datastore afterwards and the library calls made. -/
def initializeGoogleLogin (env : Env) (r : Request) (ds : Datastore) :
    (Option GoogleProvider × Option GoError) × Datastore × List ProviderCall :=
  match fetchGoogleOAuthKey env ds with
  | ((_, some err), ds1) => ((none, some err), ds1, [])
  | ((oauthToken, none), ds1) =>
    let googleProvider : GoogleProvider :=
      ⟨oauthToken.ClientID, oauthToken.ClientSecret,
        getAccessURL r ++ "/oauth/google/callback"⟩
    ((some googleProvider, none), ds1,
      [.SetSecurityKey (env.getenv "GOMNIAUTH_SECRET"),
       .New googleProvider.clientID googleProvider.clientSecret googleProvider.callbackURL])

/-- Go `oauthGoogleLogin` (`hello.go` 86-102). -/
def oauthGoogleLogin (env : Env) (r : Request) (ds : Datastore) : Served :=
  match initializeGoogleLogin env r ds with
  | ((_, some err), ds1, calls) => ⟨[], some err.Error, ds1, calls⟩
  | ((none, none), ds1, calls) => ⟨[], some nilDereference, ds1, calls⟩
  | ((some provider, none), ds1, calls) =>
    let state : ObjMap := [("after", "success")]
    let calls := calls ++ [.GetBeginAuthURL state]
    match env.getBeginAuthURL provider state with
    | (_, some err) => httpError (some err) StatusInternalServerError ds1 calls
    | (authUrl, none) => ⟨[.Redirect authUrl StatusFound], none, ds1, calls⟩

/-- Go `oauthGoogleCallback` (`hello.go` 104-133).  On a failed `GetUser` the handler
formats `err`, the error of `CompleteAuth`, which is nil at that point. -/
def oauthGoogleCallback (env : Env) (r : Request) (ds : Datastore) : Served :=
  match initializeGoogleLogin env r ds with
  | ((_, some err), ds1, calls) => ⟨[], some err.Error, ds1, calls⟩
  | ((none, none), ds1, calls) => ⟨[], some nilDereference, ds1, calls⟩
  | ((some provider, none), ds1, calls) =>
    match env.fromURLQuery r.RawQuery with
    | (_, some err) => httpError (some err) StatusInternalServerError ds1 calls
    | (omap, none) =>
      let calls := calls ++ [.CompleteAuth omap]
      match env.completeAuth provider omap with
      | (_, some err) => httpError (some err) StatusInternalServerError ds1 calls
      | (creds, err) =>
        let calls := calls ++ [.GetUser creds]
        match env.getUser provider creds with
        | (_, some _) => httpError err StatusInternalServerError ds1 calls
        | (user, none) => ⟨[.WriteString (env.goSyntax user)], none, ds1, calls⟩

/-- Go `guestbookKey` (`hello.go` 156-159). -/
def guestbookKey : Key :=
  NewKey "Guestbook" "default_guestbook" 0 none

/-- Order `-Date`: the first entity is not older than the second. -/
def dateDescending (a b : Key × Greeting) : Prop :=
  b.2.Date ≤ a.2.Date

instance : DecidableRel dateDescending :=
  fun a b => inferInstanceAs (Decidable (b.2.Date ≤ a.2.Date))

/-- The query of `root` (`hello.go` 170-177):
`NewQuery("Greeting").Ancestor(guestbookKey(c)).Order("-Date").Limit(10)` followed by
`GetAll` into an empty slice. -/
def rootQuery (env : Env) (ds : Datastore) : List Greeting × Option GoError :=
  match faultError env.queryFault with
  | some err => ([], some err)
  | none =>
    ((((ds.greetings.filter (fun e => guestbookKey <+: e.1)).insertionSort
      dateDescending).take 10).map (fun e => e.2), none)

/-- Go `root` (`hello.go` 162-182). -/
def root (env : Env) (_r : Request) (ds : Datastore) : Served :=
  match rootQuery env ds with
  | (_, some err) => httpError (some err) StatusInternalServerError ds []
  | (greetings, none) =>
    match env.execute greetings with
    | (out, some err) =>
      ⟨[.WriteString out, .Error err.Error StatusInternalServerError], none, ds, []⟩
    | (out, none) => ⟨[.WriteString out], none, ds, []⟩

/-- The entity `sign` stores (`hello.go` 214-221). -/
def signGreeting (env : Env) (r : Request) : Greeting :=
  let g : Greeting := { Author := "", Content := r.FormValue "content", Date := env.now }
  match env.currentUser with
  | some u => { g with Author := u.name }
  | none => g

/-- Go `sign` (`hello.go` 210-234). -/
def sign (env : Env) (r : Request) (ds : Datastore) : Served :=
  let g := signGreeting env r
  let key := NewIncompleteKey "Greeting" (some guestbookKey)
  match datastorePut env.putFault ds.greetings key g with
  | (_, tbl, some err) =>
    httpError (some err) StatusInternalServerError { ds with greetings := tbl } []
  | (_, tbl, none) => ⟨[.Redirect "/" StatusFound], none, { ds with greetings := tbl }, []⟩

/-! ## `googleaccount/repository.go` -/

/-- Order `UpdatedAt`: the first entity was not updated after the second. -/
def updatedAscending (a b : Key × GoogleAccount) : Prop :=
  a.2.UpdatedAt ≤ b.2.UpdatedAt

instance : DecidableRel updatedAscending :=
  fun a b => inferInstanceAs (Decidable (a.2.UpdatedAt ≤ b.2.UpdatedAt))

/-- The query of `FetchByProviderID`:
`NewQuery("GoogleAccount").Filter("ProviderID =", id).Order("UpdatedAt")` followed by
`GetAll` into a nil slice. -/
def providerQuery (env : Env) (ds : Datastore) (id : String) :
    List GoogleAccount × Option GoError :=
  match faultError env.queryFault with
  | some err => ([], some err)
  | none =>
    (((ds.googleAccounts.filter (fun e => e.2.ProviderID = id)).insertionSort
      updatedAscending).map (fun e => e.2), none)

/-- Go `googleaccount.FetchByProviderID` (`repository.go` 9-25). -/
def FetchByProviderID (env : Env) (ds : Datastore) (id : String) :
    GoogleAccount × Option GoError :=
  let ga := GoogleAccount.zero
  match providerQuery env ds id with
  | (_, some err) => (ga, some err)
  | (gas, none) =>
    match gas with
    | g :: _ => (g, none)
    | [] => (ga, some GoError.ErrNoSuchEntity)

instance : IsTotal (Key × Greeting) dateDescending :=
  ⟨fun a b => le_total b.2.Date a.2.Date⟩

instance : IsTrans (Key × Greeting) dateDescending :=
  ⟨fun _ _ _ hab hbc => le_trans hbc hab⟩

instance : IsTotal (Key × GoogleAccount) updatedAscending :=
  ⟨fun a b => le_total a.2.UpdatedAt b.2.UpdatedAt⟩

instance : IsTrans (Key × GoogleAccount) updatedAscending :=
  ⟨fun _ _ _ hab hbc => le_trans hab hbc⟩

/-! ## Specification-side definitions and sample inputs -/

/-- The callback URL as the specification words it: scheme, `://`, host, the port when the
`X-Server-Port` header is not empty, and the fixed callback path; the scheme is `https`
exactly when the request has TLS or `X-Forwarded-Scheme` is `https`. -/
def specCallbackURL (tls : Bool) (forwardedScheme host port : String) : String :=
  (if tls = true ∨ forwardedScheme = "https" then "https" else "http") ++ "://" ++ host ++
    (if port = "" then "" else ":" ++ port) ++ "/oauth/google/callback"

/-- An environment in which nothing fails: the clock reads 5, alice is signed in and the
provider resolves every login to the profile `sub-42`. -/
def sampleEnv : Env :=
  { now := 5
    currentUser := some ⟨"alice"⟩
    getenv := fun _ => "secret"
    getFault := none
    putFault := none
    queryFault := none
    fromURLQuery := fun q => ([("code", q)], none)
    getBeginAuthURL := fun p _ => ("https://accounts.example/auth?redirect_uri=" ++ p.callbackURL, none)
    completeAuth := fun _ omap => (omap, none)
    getUser := fun _ _ => (⟨"sub-42", "Alice", "alice@example.com", "https://example.com/a.png"⟩, none)
    goSyntax := fun u => u.IDForProvider
    execute := fun gs => (String.join (gs.map (fun g => g.Content)), none) }

/-- The environment `sampleEnv` with a token exchange that is refused. -/
def exchangeFailsEnv : Env :=
  { sampleEnv with completeAuth := fun _ omap => (omap, some (.other "invalid_grant")) }

/-- The environment `sampleEnv` with a profile fetch that fails. -/
def profileFailsEnv : Env :=
  { sampleEnv with
    getUser := fun _ _ => (⟨"", "", "", ""⟩, some (.other "profile unavailable")) }

/-- A plain-HTTP request behind a proxy that listens on port 8080. -/
def sampleRequest : Request :=
  ⟨false, "example.com", [("X-Server-Port", "8080")], "abc", [("content", "hello")]⟩

/-- The datastore with no entity at all. -/
def emptyStore : Datastore := ⟨[], [], []⟩

/-- A greeting key under the guestbook anchor. -/
def greetingKey (id : Int) : Key :=
  guestbookKey ++ [⟨"Greeting", "", id⟩]

/-- Ten greetings by bob, all dated 100. -/
def fullStore : Datastore :=
  ⟨[], (List.range 10).map (fun i => (greetingKey (i + 1), ⟨"bob", "hi", 100⟩)), []⟩

/-- Twelve greetings dated 1 to 12. -/
def twelveStore : Datastore :=
  ⟨[], (List.range 12).map (fun i => (greetingKey (i + 1), ⟨"bob", "hi", i + 1⟩)), []⟩

/-- An account of subject `sub-42` last updated at the given instant. -/
def sampleAccount (id : Int) (updatedAt : Time) : GoogleAccount :=
  ⟨id, "sub-42", "Alice", "alice@example.com", "", ⟨"", "", "", "", 0⟩, 0, updatedAt⟩

/-- A datastore with two accounts of subject `sub-42`, updated at 1 and at 2. -/
def duplicateStore : Datastore :=
  ⟨[], [],
    [([⟨"GoogleAccount", "", 1⟩], sampleAccount 1 2),
     ([⟨"GoogleAccount", "", 2⟩], sampleAccount 2 1)]⟩

/-- A datastore with a single account of subject `sub-42`. -/
def singleStore : Datastore :=
  ⟨[], [], [([⟨"GoogleAccount", "", 1⟩], sampleAccount 1 7)]⟩

/-! ## Datastore lemmas -/

theorem lastIntID_le_maxIntID {α : Type} (tbl : List (Key × α)) (e : Key × α)
    (h : e ∈ tbl) : lastIntID e.1 ≤ maxIntID tbl := by
  induction tbl with
  | nil => simp at h
  | cons x xs ih =>
    simp only [maxIntID, List.foldr_cons]
    rcases List.mem_cons.mp h with rfl | h'
    · exact le_max_left _ _
    · exact le_trans (ih h') (le_max_right _ _)

theorem datastorePut_incomplete {α : Type} (tbl : List (Key × α)) (key : Key) (src : α)
    (hk : Incomplete key = true) :
    datastorePut none tbl key src =
      (completeKey key (maxIntID tbl + 1),
        tbl ++ [(completeKey key (maxIntID tbl + 1), src)], none) := by
  simp [datastorePut, faultError, hk]

theorem greetingKey_fresh {α : Type} (tbl : List (Key × α)) (e : Key × α) (h : e ∈ tbl) :
    e.1 ≠ greetingKey (maxIntID tbl + 1) := by
  intro heq
  have h1 := lastIntID_le_maxIntID tbl e h
  rw [heq] at h1
  have h2 : lastIntID (greetingKey (maxIntID tbl + 1)) = maxIntID tbl + 1 := rfl
  omega

theorem sign_store (env : Env) (r : Request) (ds : Datastore) (hput : env.putFault = none) :
    sign env r ds =
      ⟨[.Redirect "/" StatusFound], none,
        { ds with greetings := ds.greetings ++
            [(greetingKey (maxIntID ds.greetings + 1), signGreeting env r)] }, []⟩ := by
  have hk : Incomplete (NewIncompleteKey "Greeting" (some guestbookKey)) = true := by decide
  simp only [sign, hput, datastorePut_incomplete _ _ _ hk]
  rfl

/-! ## Login lemmas -/

theorem fetchGoogleOAuthKey_googleAccounts (env : Env) (ds : Datastore) :
    (fetchGoogleOAuthKey env ds).2.googleAccounts = ds.googleAccounts := by
  unfold fetchGoogleOAuthKey
  dsimp only
  split
  · split <;> rfl
  · rfl
  · rfl

theorem initializeGoogleLogin_googleAccounts (env : Env) (r : Request) (ds : Datastore) :
    (initializeGoogleLogin env r ds).2.1.googleAccounts = ds.googleAccounts := by
  have h := fetchGoogleOAuthKey_googleAccounts env ds
  unfold initializeGoogleLogin
  split <;> simp_all

theorem httpError_store (err : Option GoError) (code : Nat) (ds : Datastore)
    (calls : List ProviderCall) : (httpError err code ds calls).store = ds := by
  cases err <;> rfl

theorem oauthGoogleLogin_ready (env : Env) (r : Request) (ds ds1 : Datastore)
    (p : GoogleProvider) (calls : List ProviderCall)
    (hsetup : initializeGoogleLogin env r ds = ((some p, none), ds1, calls)) :
    (oauthGoogleLogin env r ds).calls = calls ++ [.GetBeginAuthURL [("after", "success")]] := by
  rcases hb : env.getBeginAuthURL p [("after", "success")] with ⟨url, e⟩
  cases e <;> simp [oauthGoogleLogin, hsetup, hb, httpError]

theorem oauthGoogleLogin_unready (env : Env) (r : Request) (ds ds1 : Datastore)
    (po : Option GoogleProvider) (eo : Option GoError) (calls : List ProviderCall)
    (hsetup : initializeGoogleLogin env r ds = ((po, eo), ds1, calls))
    (hno : po = none ∨ eo ≠ none) :
    (oauthGoogleLogin env r ds).calls = calls := by
  cases eo with
  | some e => simp [oauthGoogleLogin, hsetup]
  | none =>
    cases po with
    | none => simp [oauthGoogleLogin, hsetup]
    | some p => simp at hno

theorem oauthGoogleCallback_unready (env : Env) (r : Request) (ds ds1 : Datastore)
    (po : Option GoogleProvider) (eo : Option GoError) (calls : List ProviderCall)
    (hsetup : initializeGoogleLogin env r ds = ((po, eo), ds1, calls))
    (hno : po = none ∨ eo ≠ none) :
    (oauthGoogleCallback env r ds).calls = calls ∧ (oauthGoogleCallback env r ds).store = ds1 := by
  cases eo with
  | some e => simp [oauthGoogleCallback, hsetup]
  | none =>
    cases po with
    | none => simp [oauthGoogleCallback, hsetup]
    | some p => simp at hno

theorem oauthGoogleCallback_query_error (env : Env) (r : Request) (ds ds1 : Datastore)
    (p : GoogleProvider) (calls : List ProviderCall) (omap : ObjMap) (e : GoError)
    (hsetup : initializeGoogleLogin env r ds = ((some p, none), ds1, calls))
    (hquery : env.fromURLQuery r.RawQuery = (omap, some e)) :
    oauthGoogleCallback env r ds =
      ⟨[.Error e.Error StatusInternalServerError], none, ds1, calls⟩ := by
  simp [oauthGoogleCallback, hsetup, hquery, httpError]

theorem oauthGoogleCallback_exchange_error (env : Env) (r : Request) (ds ds1 : Datastore)
    (p : GoogleProvider) (calls : List ProviderCall) (omap creds : ObjMap) (e : GoError)
    (hsetup : initializeGoogleLogin env r ds = ((some p, none), ds1, calls))
    (hquery : env.fromURLQuery r.RawQuery = (omap, none))
    (hexchange : env.completeAuth p omap = (creds, some e)) :
    oauthGoogleCallback env r ds =
      ⟨[.Error e.Error StatusInternalServerError], none, ds1,
        calls ++ [.CompleteAuth omap]⟩ := by
  simp [oauthGoogleCallback, hsetup, hquery, hexchange, httpError]

theorem oauthGoogleCallback_profile_error (env : Env) (r : Request) (ds ds1 : Datastore)
    (p : GoogleProvider) (calls : List ProviderCall) (omap creds : ObjMap)
    (user : ProviderUser) (e : GoError)
    (hsetup : initializeGoogleLogin env r ds = ((some p, none), ds1, calls))
    (hquery : env.fromURLQuery r.RawQuery = (omap, none))
    (hexchange : env.completeAuth p omap = (creds, none))
    (hprofile : env.getUser p creds = (user, some e)) :
    oauthGoogleCallback env r ds =
      ⟨[], some nilDereference, ds1, calls ++ [.CompleteAuth omap] ++ [.GetUser creds]⟩ := by
  simp [oauthGoogleCallback, hsetup, hquery, hexchange, hprofile, httpError]

theorem oauthGoogleCallback_success (env : Env) (r : Request) (ds ds1 : Datastore)
    (p : GoogleProvider) (calls : List ProviderCall) (omap creds : ObjMap)
    (user : ProviderUser)
    (hsetup : initializeGoogleLogin env r ds = ((some p, none), ds1, calls))
    (hquery : env.fromURLQuery r.RawQuery = (omap, none))
    (hexchange : env.completeAuth p omap = (creds, none))
    (hprofile : env.getUser p creds = (user, none)) :
    oauthGoogleCallback env r ds =
      ⟨[.WriteString (env.goSyntax user)], none, ds1,
        calls ++ [.CompleteAuth omap] ++ [.GetUser creds]⟩ := by
  simp [oauthGoogleCallback, hsetup, hquery, hexchange, hprofile]

theorem oauthGoogleCallback_store (env : Env) (r : Request) (ds : Datastore) :
    (oauthGoogleCallback env r ds).store = (initializeGoogleLogin env r ds).2.1 := by
  rcases hs : initializeGoogleLogin env r ds with ⟨⟨po, eo⟩, ds1, calls⟩
  by_cases hno : po = none ∨ eo ≠ none
  · exact (oauthGoogleCallback_unready env r ds ds1 po eo calls hs hno).2
  · obtain ⟨p, rfl⟩ : ∃ p, po = some p := by
      cases po with
      | none => simp at hno
      | some p => exact ⟨p, rfl⟩
    obtain rfl : eo = none := by
      cases eo with
      | none => rfl
      | some e => simp at hno
    rcases hq : env.fromURLQuery r.RawQuery with ⟨omap, eq⟩
    cases eq with
    | some e => rw [oauthGoogleCallback_query_error env r ds ds1 p calls omap e hs hq]
    | none =>
      rcases hc : env.completeAuth p omap with ⟨creds, ec⟩
      cases ec with
      | some e =>
        rw [oauthGoogleCallback_exchange_error env r ds ds1 p calls omap creds e hs hq hc]
      | none =>
        rcases hu : env.getUser p creds with ⟨user, eu⟩
        cases eu with
        | some e =>
          rw [oauthGoogleCallback_profile_error env r ds ds1 p calls omap creds user e
            hs hq hc hu]
        | none =>
          rw [oauthGoogleCallback_success env r ds ds1 p calls omap creds user hs hq hc hu]

theorem oauthGoogleCallback_calls (env : Env) (r : Request) (ds : Datastore)
    (c : ProviderCall) (h : c ∈ (oauthGoogleCallback env r ds).calls) :
    c ∈ (initializeGoogleLogin env r ds).2.2 ∨ (∃ m, c = .CompleteAuth m) ∨
      (∃ m, c = .GetUser m) := by
  rcases hs : initializeGoogleLogin env r ds with ⟨⟨po, eo⟩, ds1, calls⟩
  by_cases hno : po = none ∨ eo ≠ none
  · rw [(oauthGoogleCallback_unready env r ds ds1 po eo calls hs hno).1] at h
    exact Or.inl h
  · obtain ⟨p, rfl⟩ : ∃ p, po = some p := by
      cases po with
      | none => simp at hno
      | some p => exact ⟨p, rfl⟩
    obtain rfl : eo = none := by
      cases eo with
      | none => rfl
      | some e => simp at hno
    rcases hq : env.fromURLQuery r.RawQuery with ⟨omap, eq⟩
    cases eq with
    | some e =>
      rw [oauthGoogleCallback_query_error env r ds ds1 p calls omap e hs hq] at h
      exact Or.inl h
    | none =>
      rcases hc : env.completeAuth p omap with ⟨creds, ec⟩
      cases ec with
      | some e =>
        rw [oauthGoogleCallback_exchange_error env r ds ds1 p calls omap creds e hs hq hc] at h
        simp only [List.mem_append, List.mem_singleton] at h
        rcases h with h | h
        · exact Or.inl h
        · exact Or.inr (Or.inl ⟨_, h⟩)
      | none =>
        have hcalls : (oauthGoogleCallback env r ds).calls =
            calls ++ [.CompleteAuth omap] ++ [.GetUser creds] := by
          rcases hu : env.getUser p creds with ⟨user, eu⟩
          cases eu with
          | some e =>
            rw [oauthGoogleCallback_profile_error env r ds ds1 p calls omap creds user e
              hs hq hc hu]
          | none =>
            rw [oauthGoogleCallback_success env r ds ds1 p calls omap creds user hs hq hc hu]
        rw [hcalls] at h
        simp only [List.mem_append, List.mem_singleton] at h
        rcases h with (h | h) | h
        · exact Or.inl h
        · exact Or.inr (Or.inl ⟨_, h⟩)
        · exact Or.inr (Or.inr ⟨_, h⟩)

theorem oauthGoogleLogin_calls (env : Env) (r : Request) (ds : Datastore)
    (c : ProviderCall) (h : c ∈ (oauthGoogleLogin env r ds).calls) :
    c ∈ (initializeGoogleLogin env r ds).2.2 ∨ (∃ m, c = .GetBeginAuthURL m) := by
  rcases hs : initializeGoogleLogin env r ds with ⟨⟨po, eo⟩, ds1, calls⟩
  by_cases hno : po = none ∨ eo ≠ none
  · rw [oauthGoogleLogin_unready env r ds ds1 po eo calls hs hno] at h
    exact Or.inl h
  · obtain ⟨p, rfl⟩ : ∃ p, po = some p := by
      cases po with
      | none => simp at hno
      | some p => exact ⟨p, rfl⟩
    obtain rfl : eo = none := by
      cases eo with
      | none => rfl
      | some e => simp at hno
    rw [oauthGoogleLogin_ready env r ds ds1 p calls hs] at h
    simp only [List.mem_append, List.mem_singleton] at h
    rcases h with h | h
    · exact Or.inl h
    · exact Or.inr ⟨_, h⟩

theorem oauthGoogleCallback_googleAccounts (env : Env) (r : Request) (ds : Datastore) :
    (oauthGoogleCallback env r ds).store.googleAccounts = ds.googleAccounts := by
  rw [oauthGoogleCallback_store, initializeGoogleLogin_googleAccounts]

theorem initializeGoogleLogin_calls (env : Env) (r : Request) (ds : Datastore)
    (c s u : String) (h : ProviderCall.New c s u ∈ (initializeGoogleLogin env r ds).2.2) :
    u = getAccessURL r ++ "/oauth/google/callback" := by
  unfold initializeGoogleLogin at h
  split at h
  · simp at h
  · simp at h
    exact h.2.2

theorem initializeGoogleLogin_no_exchange (env : Env) (r : Request) (ds : Datastore)
    (c : ProviderCall) (h : c ∈ (initializeGoogleLogin env r ds).2.2) :
    (∃ k, c = .SetSecurityKey k) ∨ (∃ a b u, c = .New a b u) := by
  unfold initializeGoogleLogin at h
  split at h
  · simp at h
  · simp at h
    rcases h with h | h
    · exact Or.inl ⟨_, h⟩
    · exact Or.inr ⟨_, _, _, h⟩

theorem getAccessURL_spec (r : Request) :
    getAccessURL r ++ "/oauth/google/callback" =
      specCallbackURL r.TLS (r.HeaderGet "X-Forwarded-Scheme") r.Host
        (r.HeaderGet "X-Server-Port") := by
  unfold getAccessURL specCallbackURL
  by_cases hp : r.HeaderGet "X-Server-Port" = "" <;>
    by_cases hs : r.HeaderGet "X-Forwarded-Scheme" = "https" <;>
    cases r.TLS <;> simp [hp, hs, String.append_assoc]

/-! ## Query lemmas -/

theorem FetchByProviderID_found (env : Env) (ds : Datastore) (s : String)
    (hq : env.queryFault = none) (e₀ : Key × GoogleAccount)
    (h₀ : e₀ ∈ ds.googleAccounts.filter (fun e => e.2.ProviderID = s)) :
    ∃ x ∈ ds.googleAccounts, x.2.ProviderID = s ∧
      FetchByProviderID env ds s = (x.2, none) ∧
      ∀ e ∈ ds.googleAccounts, e.2.ProviderID = s → x.2.UpdatedAt ≤ e.2.UpdatedAt := by
  have hsorted := List.sorted_insertionSort updatedAscending
    (ds.googleAccounts.filter (fun e => e.2.ProviderID = s))
  have hmem : ∀ e, e ∈ (ds.googleAccounts.filter (fun e => e.2.ProviderID = s)).insertionSort
      updatedAscending ↔ e ∈ ds.googleAccounts ∧ e.2.ProviderID = s := by
    intro e
    rw [List.mem_insertionSort, List.mem_filter]
    simp
  have hfetch : FetchByProviderID env ds s =
      match ((ds.googleAccounts.filter (fun e => e.2.ProviderID = s)).insertionSort
        updatedAscending).map (fun e => e.2) with
      | g :: _ => (g, none)
      | [] => (GoogleAccount.zero, some GoError.ErrNoSuchEntity) := by
    simp [FetchByProviderID, providerQuery, faultError, hq]
  cases hS : (ds.googleAccounts.filter (fun e => e.2.ProviderID = s)).insertionSort
      updatedAscending with
  | nil =>
    have := (List.mem_insertionSort updatedAscending).mpr h₀
    rw [hS] at this
    simp at this
  | cons x xs =>
    rw [hS] at hsorted hfetch
    have hx := (hmem x).mp (by rw [hS]; exact List.mem_cons_self _ _)
    refine ⟨x, hx.1, hx.2, by simpa using hfetch, ?_⟩
    intro e he hes
    have hin := (hmem e).mpr ⟨he, hes⟩
    rw [hS] at hin
    rcases List.mem_cons.mp hin with rfl | hin
    · exact le_refl _
    · exact (List.sorted_cons.mp hsorted).1 e hin

theorem FetchByProviderID_not_found (env : Env) (ds : Datastore) (s : String)
    (hq : env.queryFault = none)
    (h₀ : ds.googleAccounts.filter (fun e => e.2.ProviderID = s) = []) :
    FetchByProviderID env ds s = (GoogleAccount.zero, some GoError.ErrNoSuchEntity) := by
  simp [FetchByProviderID, providerQuery, faultError, hq, h₀]

theorem rootQuery_ok (env : Env) (ds : Datastore) (hq : env.queryFault = none) :
    rootQuery env ds =
      ((((ds.greetings.filter (fun e => guestbookKey <+: e.1)).insertionSort
        dateDescending).take 10).map (fun e => e.2), none) := by
  simp [rootQuery, faultError, hq]

theorem take_of_short_front {α : Type} (A B : List α) (x : α) (n : Nat)
    (h : A.length < n) :
    ∃ C, (A ++ x :: B).take n = A ++ x :: C := by
  induction A generalizing n with
  | nil =>
    cases n with
    | zero => simp at h
    | succ m => exact ⟨B.take m, rfl⟩
  | cons a A ih =>
    cases n with
    | zero => simp at h
    | succ m =>
      obtain ⟨C, hC⟩ := ih m (by simpa using h)
      exact ⟨C, by simp [hC]⟩

/-! ## Claims -/

/-- C10. Whenever the datastore write of `sign` succeeds, the handler redirects to `/` and
leaves the datastore it found plus exactly one greeting, appended under a key that lies
under the guestbook anchor and was not in use; its content is the form field `content`,
its author is the name of the current user, or empty when there is none, and its date is
the clock reading.  The other tables and all existing greetings are untouched. -/
theorem sign_appends_one_entry (env : Env) (r : Request) (ds : Datastore)
    (hput : env.putFault = none) :
    ∃ (k : Key) (g : Greeting),
      (sign env r ds).store = { ds with greetings := ds.greetings ++ [(k, g)] } ∧
      guestbookKey <+: k ∧ (∀ e ∈ ds.greetings, e.1 ≠ k) ∧
      g.Content = r.FormValue "content" ∧
      g.Author = (match env.currentUser with
        | some u => u.name
        | none => "") ∧
      g.Date = env.now ∧
      (sign env r ds).w = [.Redirect "/" StatusFound] ∧ (sign env r ds).panicked = none := by
  refine ⟨greetingKey (maxIntID ds.greetings + 1), signGreeting env r, ?_, ?_, ?_, ?_, ?_, ?_, ?_, ?_⟩
  · rw [sign_store env r ds hput]
  · exact List.prefix_append _ _
  · exact fun e he => greetingKey_fresh ds.greetings e he
  · unfold signGreeting; cases env.currentUser <;> rfl
  · unfold signGreeting; cases env.currentUser <;> rfl
  · unfold signGreeting; cases env.currentUser <;> rfl
  · rw [sign_store env r ds hput]
  · rw [sign_store env r ds hput]

/-- Witness of C10: an anonymous visitor signs the empty guestbook. -/
theorem sign_appends_one_entry_witness :
    ({ sampleEnv with currentUser := none } : Env).putFault = none ∧
    ∃ (k : Key) (g : Greeting),
      (sign { sampleEnv with currentUser := none } sampleRequest emptyStore).store =
        { emptyStore with greetings := emptyStore.greetings ++ [(k, g)] } ∧
      guestbookKey <+: k ∧ (∀ e ∈ emptyStore.greetings, e.1 ≠ k) ∧
      g.Content = sampleRequest.FormValue "content" ∧
      g.Author = (match ({ sampleEnv with currentUser := none } : Env).currentUser with
        | some u => u.name
        | none => "") ∧
      g.Date = ({ sampleEnv with currentUser := none } : Env).now ∧
      (sign { sampleEnv with currentUser := none } sampleRequest emptyStore).w =
        [.Redirect "/" StatusFound] ∧
      (sign { sampleEnv with currentUser := none } sampleRequest emptyStore).panicked = none :=
  ⟨rfl, sign_appends_one_entry { sampleEnv with currentUser := none } sampleRequest emptyStore rfl⟩

/-- C6. Starting from a datastore without any `OAuthToken` record, with `Get` and `Put`
succeeding, two calls of `fetchGoogleOAuthKey` in a row both succeed and return the same
client id and client secret, the second call leaves the datastore as the first one left
it, and afterwards the `OAuthToken` table holds exactly one record, under the key
`google`. -/
theorem fetchGoogleOAuthKey_idempotent (env₁ env₂ : Env) (ds : Datastore)
    (hempty : ds.oauthTokens = [])
    (hget₁ : env₁.getFault = none) (hput₁ : env₁.putFault = none)
    (hget₂ : env₂.getFault = none) :
    (fetchGoogleOAuthKey env₁ ds).1.2 = none ∧
    (fetchGoogleOAuthKey env₂ (fetchGoogleOAuthKey env₁ ds).2).1.2 = none ∧
    (fetchGoogleOAuthKey env₂ (fetchGoogleOAuthKey env₁ ds).2).1.1.ClientID =
      (fetchGoogleOAuthKey env₁ ds).1.1.ClientID ∧
    (fetchGoogleOAuthKey env₂ (fetchGoogleOAuthKey env₁ ds).2).1.1.ClientSecret =
      (fetchGoogleOAuthKey env₁ ds).1.1.ClientSecret ∧
    (fetchGoogleOAuthKey env₂ (fetchGoogleOAuthKey env₁ ds).2).2 =
      (fetchGoogleOAuthKey env₁ ds).2 ∧
    ((fetchGoogleOAuthKey env₂ (fetchGoogleOAuthKey env₁ ds).2).2.oauthTokens.map
      (fun e => e.1)) = [NewKey "OAuthToken" "google" 0 none] := by
  have h₁ : fetchGoogleOAuthKey env₁ ds =
      ((⟨"default", "<ClientID>", "<ClientSecret>"⟩, none),
        { ds with oauthTokens :=
            [(NewKey "OAuthToken" "google" 0 none,
              ⟨"default", "<ClientID>", "<ClientSecret>"⟩)] }) := by
    simp [fetchGoogleOAuthKey, datastoreGet, datastorePut, faultError, lookupKey, hempty,
      hget₁, hput₁, Incomplete, NewKey]
  have h₂ : fetchGoogleOAuthKey env₂
      { ds with oauthTokens :=
          [(NewKey "OAuthToken" "google" 0 none,
            ⟨"default", "<ClientID>", "<ClientSecret>"⟩)] } =
      ((⟨"default", "<ClientID>", "<ClientSecret>"⟩, none),
        { ds with oauthTokens :=
            [(NewKey "OAuthToken" "google" 0 none,
              ⟨"default", "<ClientID>", "<ClientSecret>"⟩)] }) := by
    simp [fetchGoogleOAuthKey, datastoreGet, faultError, lookupKey, hget₂]
  rw [h₁]
  dsimp only
  rw [h₂]
  simp

/-- Witness of C6: two calls on the empty datastore. -/
theorem fetchGoogleOAuthKey_idempotent_witness :
    emptyStore.oauthTokens = [] ∧ sampleEnv.getFault = none ∧ sampleEnv.putFault = none ∧
    (fetchGoogleOAuthKey sampleEnv (fetchGoogleOAuthKey sampleEnv emptyStore).2).1.1.ClientID =
      (fetchGoogleOAuthKey sampleEnv emptyStore).1.1.ClientID ∧
    (fetchGoogleOAuthKey sampleEnv (fetchGoogleOAuthKey sampleEnv emptyStore).2).2 =
      (fetchGoogleOAuthKey sampleEnv emptyStore).2 :=
  ⟨rfl, rfl, rfl,
    (fetchGoogleOAuthKey_idempotent sampleEnv sampleEnv emptyStore rfl rfl rfl rfl).2.2.1,
    (fetchGoogleOAuthKey_idempotent sampleEnv sampleEnv emptyStore rfl rfl rfl rfl).2.2.2.2.1⟩

/-- C9. Whatever the environment and the datastore, the callback URL that
`oauthGoogleLogin` and the callback URL that `oauthGoogleCallback` hand to `google.New`
are both the string the specification describes, computed from the TLS presence, the
`X-Forwarded-Scheme` header, the host and the `X-Server-Port` header of the request; two
requests that agree on these four inputs get the same callback URL. -/
theorem callback_url_derivation (env₁ env₂ : Env) (r₁ r₂ : Request) (ds₁ ds₂ : Datastore)
    (c₁ s₁ u₁ c₂ s₂ u₂ : String)
    (hlogin : ProviderCall.New c₁ s₁ u₁ ∈ (oauthGoogleLogin env₁ r₁ ds₁).calls)
    (hcallback : ProviderCall.New c₂ s₂ u₂ ∈ (oauthGoogleCallback env₂ r₂ ds₂).calls) :
    u₁ = specCallbackURL r₁.TLS (r₁.HeaderGet "X-Forwarded-Scheme") r₁.Host
      (r₁.HeaderGet "X-Server-Port") ∧
    u₂ = specCallbackURL r₂.TLS (r₂.HeaderGet "X-Forwarded-Scheme") r₂.Host
      (r₂.HeaderGet "X-Server-Port") ∧
    (r₁.TLS = r₂.TLS →
      r₁.HeaderGet "X-Forwarded-Scheme" = r₂.HeaderGet "X-Forwarded-Scheme" →
      r₁.Host = r₂.Host → r₁.HeaderGet "X-Server-Port" = r₂.HeaderGet "X-Server-Port" →
      u₁ = u₂) := by
  have e₁ : u₁ = getAccessURL r₁ ++ "/oauth/google/callback" := by
    apply initializeGoogleLogin_calls env₁ r₁ ds₁ c₁ s₁ u₁
    rcases oauthGoogleLogin_calls env₁ r₁ ds₁ _ hlogin with h | ⟨m, h⟩
    · exact h
    · cases h
  have e₂ : u₂ = getAccessURL r₂ ++ "/oauth/google/callback" := by
    apply initializeGoogleLogin_calls env₂ r₂ ds₂ c₂ s₂ u₂
    rcases oauthGoogleCallback_calls env₂ r₂ ds₂ _ hcallback with h | ⟨m, h⟩ | ⟨m, h⟩
    · exact h
    · cases h
    · cases h
  rw [getAccessURL_spec] at e₁ e₂
  refine ⟨e₁, e₂, ?_⟩
  intro h1 h2 h3 h4
  rw [e₁, e₂, h1, h2, h3, h4]

/-- Witness of C9: the login and the callback of the same plain-HTTP request on port 8080. -/
theorem callback_url_derivation_witness :
    ProviderCall.New "<ClientID>" "<ClientSecret>" "http://example.com:8080/oauth/google/callback"
      ∈ (oauthGoogleLogin sampleEnv sampleRequest emptyStore).calls ∧
    ProviderCall.New "<ClientID>" "<ClientSecret>" "http://example.com:8080/oauth/google/callback"
      ∈ (oauthGoogleCallback sampleEnv sampleRequest emptyStore).calls ∧
    "http://example.com:8080/oauth/google/callback" =
      specCallbackURL sampleRequest.TLS (sampleRequest.HeaderGet "X-Forwarded-Scheme")
        sampleRequest.Host (sampleRequest.HeaderGet "X-Server-Port") :=
  ⟨by decide, by decide,
    (callback_url_derivation sampleEnv sampleEnv sampleRequest sampleRequest emptyStore
      emptyStore "<ClientID>" "<ClientSecret>" "http://example.com:8080/oauth/google/callback"
      "<ClientID>" "<ClientSecret>" "http://example.com:8080/oauth/google/callback"
      (by decide) (by decide)).1⟩

/-- C5. When provider setup and the reading of the query string succeed and the token
exchange `CompleteAuth` fails with an error `e`, `oauthGoogleCallback` does not panic,
answers with status 500 and the message of `e`, makes no `GetUser` call, and leaves the
`GoogleAccount` records of the datastore as they were. -/
theorem exchange_failure_reported (env : Env) (r : Request) (ds ds1 : Datastore)
    (p : GoogleProvider) (calls : List ProviderCall) (omap creds : ObjMap) (e : GoError)
    (hsetup : initializeGoogleLogin env r ds = ((some p, none), ds1, calls))
    (hquery : env.fromURLQuery r.RawQuery = (omap, none))
    (hexchange : env.completeAuth p omap = (creds, some e)) :
    (oauthGoogleCallback env r ds).w = [.Error e.Error 500] ∧
    statusCode (oauthGoogleCallback env r ds).w = some 500 ∧
    (oauthGoogleCallback env r ds).panicked = none ∧
    (∀ m, ProviderCall.GetUser m ∉ (oauthGoogleCallback env r ds).calls) ∧
    (oauthGoogleCallback env r ds).store.googleAccounts = ds.googleAccounts := by
  have hacc := oauthGoogleCallback_googleAccounts env r ds
  have hinit : ∀ c ∈ calls, (∃ k, c = .SetSecurityKey k) ∨ (∃ a b u, c = .New a b u) := by
    intro c hc
    apply initializeGoogleLogin_no_exchange env r ds c
    rw [hsetup]
    exact hc
  rw [oauthGoogleCallback_exchange_error env r ds ds1 p calls omap creds e hsetup hquery
    hexchange] at hacc ⊢
  refine ⟨rfl, rfl, rfl, ?_, hacc⟩
  intro m hm
  simp only [List.mem_append, List.mem_singleton] at hm
  rcases hm with hm | hm
  · rcases hinit _ hm with ⟨k, hk⟩ | ⟨a, b, u, hk⟩ <;> cases hk
  · cases hm

/-- Witness of C5: the provider refuses the code with `invalid_grant`. -/
theorem exchange_failure_reported_witness :
    (oauthGoogleCallback exchangeFailsEnv sampleRequest emptyStore).w =
      [.Error "invalid_grant" 500] ∧
    (oauthGoogleCallback exchangeFailsEnv sampleRequest emptyStore).store.googleAccounts = [] :=
  ⟨(exchange_failure_reported exchangeFailsEnv sampleRequest emptyStore
      (initializeGoogleLogin exchangeFailsEnv sampleRequest emptyStore).2.1
      ⟨"<ClientID>", "<ClientSecret>", "http://example.com:8080/oauth/google/callback"⟩
      (initializeGoogleLogin exchangeFailsEnv sampleRequest emptyStore).2.2
      [("code", "abc")] [("code", "abc")] (.other "invalid_grant")
      (by decide) (by decide) (by decide)).1,
   (exchange_failure_reported exchangeFailsEnv sampleRequest emptyStore
      (initializeGoogleLogin exchangeFailsEnv sampleRequest emptyStore).2.1
      ⟨"<ClientID>", "<ClientSecret>", "http://example.com:8080/oauth/google/callback"⟩
      (initializeGoogleLogin exchangeFailsEnv sampleRequest emptyStore).2.2
      [("code", "abc")] [("code", "abc")] (.other "invalid_grant")
      (by decide) (by decide) (by decide)).2.2.2.2⟩

/-- C4. When provider setup, the reading of the query string and the token exchange
succeed and the profile fetch `GetUser` fails, `oauthGoogleCallback` panics with a nil
dereference and writes nothing to the response: no status 500 and no error message. -/
theorem profile_failure_panics (env : Env) (r : Request) (ds ds1 : Datastore)
    (p : GoogleProvider) (calls : List ProviderCall) (omap creds : ObjMap)
    (user : ProviderUser) (e : GoError)
    (hsetup : initializeGoogleLogin env r ds = ((some p, none), ds1, calls))
    (hquery : env.fromURLQuery r.RawQuery = (omap, none))
    (hexchange : env.completeAuth p omap = (creds, none))
    (hprofile : env.getUser p creds = (user, some e)) :
    (oauthGoogleCallback env r ds).panicked = some nilDereference ∧
    (oauthGoogleCallback env r ds).w = [] ∧
    statusCode (oauthGoogleCallback env r ds).w = none := by
  rw [oauthGoogleCallback_profile_error env r ds ds1 p calls omap creds user e hsetup hquery
    hexchange hprofile]
  exact ⟨rfl, rfl, rfl⟩

/-- Witness of C4: the profile fetch fails with `profile unavailable`. -/
theorem profile_failure_panics_witness :
    (oauthGoogleCallback profileFailsEnv sampleRequest emptyStore).panicked =
      some nilDereference ∧
    (oauthGoogleCallback profileFailsEnv sampleRequest emptyStore).w = [] :=
  ⟨(profile_failure_panics profileFailsEnv sampleRequest emptyStore
      (initializeGoogleLogin profileFailsEnv sampleRequest emptyStore).2.1
      ⟨"<ClientID>", "<ClientSecret>", "http://example.com:8080/oauth/google/callback"⟩
      (initializeGoogleLogin profileFailsEnv sampleRequest emptyStore).2.2
      [("code", "abc")] [("code", "abc")] ⟨"", "", "", ""⟩ (.other "profile unavailable")
      (by decide) (by decide) (by decide) (by decide)).1,
   (profile_failure_panics profileFailsEnv sampleRequest emptyStore
      (initializeGoogleLogin profileFailsEnv sampleRequest emptyStore).2.1
      ⟨"<ClientID>", "<ClientSecret>", "http://example.com:8080/oauth/google/callback"⟩
      (initializeGoogleLogin profileFailsEnv sampleRequest emptyStore).2.2
      [("code", "abc")] [("code", "abc")] ⟨"", "", "", ""⟩ (.other "profile unavailable")
      (by decide) (by decide) (by decide) (by decide)).2.1⟩

/-- C3, as stated, fails: on the empty datastore a login in which setup, token exchange and
profile fetch all succeed for the subject `sub-42` is answered with the profile, and the
datastore afterwards holds no `GoogleAccount` record for `sub-42`. -/
theorem login_success_stores_no_account :
    (oauthGoogleCallback sampleEnv sampleRequest emptyStore).w = [.WriteString "sub-42"] ∧
    (oauthGoogleCallback sampleEnv sampleRequest emptyStore).panicked = none ∧
    ProviderCall.GetUser [("code", "abc")] ∈
      (oauthGoogleCallback sampleEnv sampleRequest emptyStore).calls ∧
    ¬ ∃ e ∈ (oauthGoogleCallback sampleEnv sampleRequest emptyStore).store.googleAccounts,
      e.2.ProviderID = "sub-42" := by
  decide

/-- C3, amended. When provider setup, the reading of the query string, the token exchange
and the profile fetch all succeed, `oauthGoogleCallback` does not panic, answers with
status 200 and the Go-syntax text of the fetched profile, and leaves the `GoogleAccount`
records of the datastore as they were: it writes no account. -/
theorem login_success_reports_profile (env : Env) (r : Request) (ds ds1 : Datastore)
    (p : GoogleProvider) (calls : List ProviderCall) (omap creds : ObjMap)
    (user : ProviderUser)
    (hsetup : initializeGoogleLogin env r ds = ((some p, none), ds1, calls))
    (hquery : env.fromURLQuery r.RawQuery = (omap, none))
    (hexchange : env.completeAuth p omap = (creds, none))
    (hprofile : env.getUser p creds = (user, none)) :
    (oauthGoogleCallback env r ds).w = [.WriteString (env.goSyntax user)] ∧
    statusCode (oauthGoogleCallback env r ds).w = some 200 ∧
    (oauthGoogleCallback env r ds).panicked = none ∧
    (oauthGoogleCallback env r ds).store.googleAccounts = ds.googleAccounts := by
  have hacc := oauthGoogleCallback_googleAccounts env r ds
  rw [oauthGoogleCallback_success env r ds ds1 p calls omap creds user hsetup hquery
    hexchange hprofile] at hacc ⊢
  exact ⟨rfl, rfl, rfl, hacc⟩

/-- Witness of the amended C3: a successful login on the empty datastore. -/
theorem login_success_reports_profile_witness :
    (oauthGoogleCallback sampleEnv sampleRequest emptyStore).w = [.WriteString "sub-42"] ∧
    (oauthGoogleCallback sampleEnv sampleRequest emptyStore).store.googleAccounts = [] :=
  ⟨(login_success_reports_profile sampleEnv sampleRequest emptyStore
      (initializeGoogleLogin sampleEnv sampleRequest emptyStore).2.1
      ⟨"<ClientID>", "<ClientSecret>", "http://example.com:8080/oauth/google/callback"⟩
      (initializeGoogleLogin sampleEnv sampleRequest emptyStore).2.2
      [("code", "abc")] [("code", "abc")]
      ⟨"sub-42", "Alice", "alice@example.com", "https://example.com/a.png"⟩
      (by decide) (by decide) (by decide) (by decide)).1,
   (login_success_reports_profile sampleEnv sampleRequest emptyStore
      (initializeGoogleLogin sampleEnv sampleRequest emptyStore).2.1
      ⟨"<ClientID>", "<ClientSecret>", "http://example.com:8080/oauth/google/callback"⟩
      (initializeGoogleLogin sampleEnv sampleRequest emptyStore).2.2
      [("code", "abc")] [("code", "abc")]
      ⟨"sub-42", "Alice", "alice@example.com", "https://example.com/a.png"⟩
      (by decide) (by decide) (by decide) (by decide)).2.2.2⟩

/-- C7. When the query succeeds: if exactly one `GoogleAccount` record has `ProviderID`
equal to `s`, `FetchByProviderID` returns that record and a nil error; if no record has,
it returns `ErrNoSuchEntity`; and whenever it returns a nil error, the record returned is
one of the datastore and its `ProviderID` is `s`. -/
theorem FetchByProviderID_resolves (env : Env) (ds : Datastore) (s : String)
    (hq : env.queryFault = none) :
    (∀ e, ds.googleAccounts.filter (fun e => e.2.ProviderID = s) = [e] →
      FetchByProviderID env ds s = (e.2, none)) ∧
    (ds.googleAccounts.filter (fun e => e.2.ProviderID = s) = [] →
      (FetchByProviderID env ds s).2 = some GoError.ErrNoSuchEntity) ∧
    (∀ g, FetchByProviderID env ds s = (g, none) →
      g.ProviderID = s ∧ ∃ k, (k, g) ∈ ds.googleAccounts) := by
  refine ⟨?_, ?_, ?_⟩
  · intro e he
    simp [FetchByProviderID, providerQuery, faultError, hq, he]
  · intro h₀
    rw [FetchByProviderID_not_found env ds s hq h₀]
  · intro g hg
    cases hF : ds.googleAccounts.filter (fun e => e.2.ProviderID = s) with
    | nil =>
      rw [FetchByProviderID_not_found env ds s hq hF] at hg
      simp at hg
    | cons e₀ es =>
      obtain ⟨x, hx, hxs, hfetch, _⟩ := FetchByProviderID_found env ds s hq e₀
        (by rw [hF]; exact List.mem_cons_self _ _)
      rw [hfetch] at hg
      have hxg : x.2 = g := (Prod.mk.inj hg).1
      subst hxg
      exact ⟨hxs, x.1, hx⟩

/-- Witness of C7: a datastore with one account of `sub-42`, asked for `sub-42` and for
`sub-7`. -/
theorem FetchByProviderID_resolves_witness :
    FetchByProviderID sampleEnv singleStore "sub-42" = (sampleAccount 1 7, none) ∧
    (FetchByProviderID sampleEnv singleStore "sub-7").2 = some GoError.ErrNoSuchEntity :=
  ⟨(FetchByProviderID_resolves sampleEnv singleStore "sub-42" rfl).1
      ([⟨"GoogleAccount", "", 1⟩], sampleAccount 1 7) (by decide),
   (FetchByProviderID_resolves sampleEnv singleStore "sub-7" rfl).2.1 (by decide)⟩

/-- C8, as stated, fails: with two accounts of `sub-42`, updated at 2 and at 1,
`FetchByProviderID` returns the one updated at 1, although the other one was updated
strictly later. -/
theorem FetchByProviderID_returns_older_duplicate :
    FetchByProviderID sampleEnv duplicateStore "sub-42" = (sampleAccount 2 1, none) ∧
    ∃ e ∈ duplicateStore.googleAccounts,
      e.2.ProviderID = "sub-42" ∧ (sampleAccount 2 1).UpdatedAt < e.2.UpdatedAt := by
  decide

/-- C8, amended. When the query succeeds and two or more `GoogleAccount` records share
the `ProviderID` `s`, `FetchByProviderID` returns with a nil error one of these records,
the one with the earliest `UpdatedAt`: no record with `ProviderID` `s` has an `UpdatedAt`
strictly earlier than the returned one. -/
theorem FetchByProviderID_earliest_wins (env : Env) (ds : Datastore) (s : String)
    (hq : env.queryFault = none)
    (hdup : 2 ≤ (ds.googleAccounts.filter (fun e => e.2.ProviderID = s)).length) :
    (FetchByProviderID env ds s).2 = none ∧
    (FetchByProviderID env ds s).1.ProviderID = s ∧
    (∃ k, (k, (FetchByProviderID env ds s).1) ∈ ds.googleAccounts) ∧
    ∀ e ∈ ds.googleAccounts, e.2.ProviderID = s →
      ¬ e.2.UpdatedAt < (FetchByProviderID env ds s).1.UpdatedAt := by
  cases hF : ds.googleAccounts.filter (fun e => e.2.ProviderID = s) with
  | nil =>
    rw [hF] at hdup
    simp at hdup
  | cons e₀ es =>
    obtain ⟨x, hx, hxs, hfetch, hmin⟩ := FetchByProviderID_found env ds s hq e₀
      (by rw [hF]; exact List.mem_cons_self _ _)
    rw [hfetch]
    exact ⟨rfl, hxs, ⟨x.1, hx⟩, fun e he hes => not_lt.mpr (hmin e he hes)⟩

/-- Witness of the amended C8: the two accounts of `sub-42`. -/
theorem FetchByProviderID_earliest_wins_witness :
    2 ≤ (duplicateStore.googleAccounts.filter (fun e => e.2.ProviderID = "sub-42")).length ∧
    (FetchByProviderID sampleEnv duplicateStore "sub-42").2 = none ∧
    (FetchByProviderID sampleEnv duplicateStore "sub-42").1.ProviderID = "sub-42" :=
  ⟨by decide,
   (FetchByProviderID_earliest_wins sampleEnv duplicateStore "sub-42" rfl (by decide)).1,
   (FetchByProviderID_earliest_wins sampleEnv duplicateStore "sub-42" rfl (by decide)).2.1⟩

/-- C2. When the query succeeds, the read of `root` returns exactly `min n 10` greetings,
where `n` is the number of greetings under the guestbook anchor; they are ordered by
`Date` descending; and together with the greetings under the anchor that are left out
they make up all the greetings under the anchor, none of those left out being dated later
than any of those returned. -/
theorem rootQuery_window (env : Env) (ds : Datastore) (hq : env.queryFault = none) :
    (rootQuery env ds).2 = none ∧
    (rootQuery env ds).1.length =
      min (ds.greetings.filter (fun e => guestbookKey <+: e.1)).length 10 ∧
    List.Sorted (fun a b : Greeting => b.Date ≤ a.Date) (rootQuery env ds).1 ∧
    ∃ rest : List Greeting,
      ((rootQuery env ds).1 ++ rest).Perm
        ((ds.greetings.filter (fun e => guestbookKey <+: e.1)).map (fun e => e.2)) ∧
      ∀ x ∈ (rootQuery env ds).1, ∀ y ∈ rest, y.Date ≤ x.Date := by
  have hsorted := List.sorted_insertionSort dateDescending
    (ds.greetings.filter (fun e => guestbookKey <+: e.1))
  have hperm := List.perm_insertionSort dateDescending
    (ds.greetings.filter (fun e => guestbookKey <+: e.1))
  rw [rootQuery_ok env ds hq]
  refine ⟨rfl, ?_, ?_, ?_⟩
  · simp only [List.length_map, List.length_take, List.length_insertionSort]
    exact Nat.min_comm _ _
  · have hsub : List.Sorted dateDescending
        (((ds.greetings.filter (fun e => guestbookKey <+: e.1)).insertionSort
          dateDescending).take 10) :=
      List.Pairwise.sublist (List.take_sublist _ _) hsorted
    exact List.pairwise_map.mpr hsub
  · refine ⟨(((ds.greetings.filter (fun e => guestbookKey <+: e.1)).insertionSort
      dateDescending).drop 10).map (fun e => e.2), ?_, ?_⟩
    · simp only
      rw [← List.map_append, List.take_append_drop]
      exact hperm.map _
    · intro x hx y hy
      obtain ⟨a, ha, rfl⟩ := List.mem_map.mp hx
      obtain ⟨b, hb, rfl⟩ := List.mem_map.mp hy
      exact List.Sorted.rel_of_mem_take_of_mem_drop hsorted ha hb

/-- Witness of C2: of twelve greetings dated 1 to 12, ten are returned, the newest first. -/
theorem rootQuery_window_witness :
    sampleEnv.queryFault = none ∧
    (twelveStore.greetings.filter (fun e => guestbookKey <+: e.1)).length = 12 ∧
    (rootQuery sampleEnv twelveStore).1.length = min 12 10 ∧
    (rootQuery sampleEnv twelveStore).1.map (fun g => g.Date) =
      [12, 11, 10, 9, 8, 7, 6, 5, 4, 3] :=
  ⟨rfl, by decide, (rootQuery_window sampleEnv twelveStore rfl).2.1, by decide⟩

/-- C1, as stated, fails: the guestbook holds ten greetings by bob dated 100, alice signs
`hello` while the clock reads 5, the write succeeds, and the read that follows returns
ten greetings none of which has author `alice` and content `hello`. -/
theorem sign_then_root_entry_hidden :
    (sign sampleEnv sampleRequest fullStore).w = [.Redirect "/" 302] ∧
    signGreeting sampleEnv sampleRequest = ⟨"alice", "hello", 5⟩ ∧
    (rootQuery sampleEnv (sign sampleEnv sampleRequest fullStore).store).2 = none ∧
    (rootQuery sampleEnv (sign sampleEnv sampleRequest fullStore).store).1.length = 10 ∧
    ¬ ∃ g ∈ (rootQuery sampleEnv (sign sampleEnv sampleRequest fullStore).store).1,
      g.Author = "alice" ∧ g.Content = "hello" := by
  decide

/-- C1, amended. When the write of `sign` at clock reading `t0` succeeds and fewer than
ten greetings already under the guestbook anchor are dated `t0` or later, the read of
`root` that follows, when its query succeeds, returns a list that contains the greeting
just written (the author and content of the request, dated `t0`), and every greeting
before it in that list is dated `t0` or later. -/
theorem sign_then_root_visible (env env' : Env) (r : Request) (ds : Datastore)
    (hput : env.putFault = none) (hq : env'.queryFault = none)
    (hroom : ((ds.greetings.filter (fun e => guestbookKey <+: e.1)).filter
      (fun e => env.now ≤ e.2.Date)).length < 10) :
    ∃ (g : Greeting) (before after : List Greeting),
      rootQuery env' (sign env r ds).store = (before ++ g :: after, none) ∧
      g.Author = (match env.currentUser with
        | some u => u.name
        | none => "") ∧
      g.Content = r.FormValue "content" ∧ g.Date = env.now ∧
      ∀ b ∈ before, ¬ b.Date < env.now := by
  have hdate : (signGreeting env r).Date = env.now := by
    unfold signGreeting; cases env.currentUser <;> rfl
  refine ⟨signGreeting env r, ?_⟩
  rw [sign_store env r ds hput, rootQuery_ok env' _ hq]
  simp only
  have hfilter : (ds.greetings ++
      [(greetingKey (maxIntID ds.greetings + 1), signGreeting env r)]).filter
        (fun e => guestbookKey <+: e.1) =
      ds.greetings.filter (fun e => guestbookKey <+: e.1) ++
        [(greetingKey (maxIntID ds.greetings + 1), signGreeting env r)] := by
    have hanchor : guestbookKey <+: greetingKey (maxIntID ds.greetings + 1) :=
      List.prefix_append _ _
    simp [List.filter_append, List.filter_cons, hanchor]
  rw [hfilter]
  generalize hx : (greetingKey (maxIntID ds.greetings + 1), signGreeting env r) = x
  generalize hF : ds.greetings.filter (fun e => guestbookKey <+: e.1) = F at hroom
  have hxdate : x.2.Date = env.now := by rw [← hx]; exact hdate
  have hsorted := List.sorted_insertionSort dateDescending (F ++ [x])
  have hperm := List.perm_insertionSort dateDescending (F ++ [x])
  have hxmem : x ∈ (F ++ [x]).insertionSort dateDescending :=
    (List.mem_insertionSort dateDescending).mpr (by simp)
  obtain ⟨A, B, hS⟩ := List.append_of_mem hxmem
  rw [hS] at hsorted hperm
  have hA : ∀ a ∈ A, env.now ≤ a.2.Date := by
    intro a ha
    have := (List.pairwise_append.mp hsorted).2.2 a ha x (List.mem_cons_self _ _)
    rw [← hxdate]
    exact this
  have hAB : (A ++ B).Perm F := by
    have h1 : (x :: (A ++ B)).Perm (x :: F) :=
      (List.perm_middle.symm.trans hperm).trans (List.perm_append_singleton x F)
    exact List.Perm.cons_inv h1
  have hlen : A.length < 10 := by
    have h1 : A.filter (fun e => env.now ≤ e.2.Date) = A :=
      List.filter_eq_self.mpr (fun a ha => by simpa using hA a ha)
    have h2 : (A.filter (fun e => decide (env.now ≤ e.2.Date))).length ≤
        ((A ++ B).filter (fun e => decide (env.now ≤ e.2.Date))).length := by
      rw [List.filter_append, List.length_append]
      exact Nat.le_add_right _ _
    have h3 := (hAB.filter (fun e => decide (env.now ≤ e.2.Date))).length_eq
    rw [h1] at h2
    omega
  obtain ⟨C, hC⟩ := take_of_short_front A B x 10 hlen
  refine ⟨A.map (fun e => e.2), C.map (fun e => e.2), ?_, ?_, ?_, ?_, ?_⟩
  · rw [hS, hC]
    simp [← hx]
  · unfold signGreeting; cases env.currentUser <;> rfl
  · unfold signGreeting; cases env.currentUser <;> rfl
  · exact hdate
  · intro b hb
    obtain ⟨a, ha, rfl⟩ := List.mem_map.mp hb
    exact not_lt.mpr (hA a ha)

/-- Witness of the amended C1: alice signs a guestbook of twelve older greetings. -/
theorem sign_then_root_visible_witness :
    sampleEnv.putFault = none ∧ sampleEnv.queryFault = none ∧
    ((twelveStore.greetings.filter (fun e => guestbookKey <+: e.1)).filter
      (fun e => sampleEnv.now ≤ e.2.Date)).length < 10 ∧
    ∃ (g : Greeting) (before after : List Greeting),
      rootQuery sampleEnv (sign sampleEnv sampleRequest twelveStore).store =
        (before ++ g :: after, none) ∧
      g.Author = (match sampleEnv.currentUser with
        | some u => u.name
        | none => "") ∧
      g.Content = sampleRequest.FormValue "content" ∧ g.Date = sampleEnv.now ∧
      ∀ b ∈ before, ¬ b.Date < sampleEnv.now :=
  ⟨rfl, rfl, by decide,
    sign_then_root_visible sampleEnv sampleEnv sampleRequest twelveStore rfl rfl (by decide)⟩

end Guestbook
